import Mathlib

/-!
# Math Quest — verification of the core logic

Shallow embedding of the core logic of the Math Quest quiz application:

* the answer-equivalence checker `compareAnswers` (`src/app/page.tsx` and
  `src/ai/schemas/math-question.ts`, two identical copies in the source),
* the question-generation post-processing (`generateMathQuestionFlow`),
* the performance-analysis flow (`analyzePerformanceFlow`),
* the client-side session state machine (history, cursor, preload, profile).

Strings are modelled as Lean `String`/`List Char`.  JavaScript numbers
produced by `parseFloat` are modelled exactly as rationals (`ℚ`), with
`Infinity` results tracked separately (a comparison involving `Infinity` or
`NaN` is never `< 1e-6`, which the embedding reflects).  `toLowerCase` is
modelled on ASCII letters (the source's `toLowerCase`; answer strings are
ASCII math text).  Asynchronous calls to the external text-generation
collaborator are modelled by a pure oracle `gen : input → Option output`
(`none` = the request fails), awaited calls completing within the handler
that issued them.
-/

namespace MathQuest

/-! ## JavaScript string primitives -/

/-- The characters matched by the JavaScript regexp class `\s`
(whitespace and line terminators; also the set removed by `String.trim`). -/
def jsWhitespaceChars : List Char :=
  [' ', '\t', '\n', '\r', '\x0b', '\x0c',
   Char.ofNat 0x00A0, Char.ofNat 0x1680,
   Char.ofNat 0x2000, Char.ofNat 0x2001, Char.ofNat 0x2002, Char.ofNat 0x2003,
   Char.ofNat 0x2004, Char.ofNat 0x2005, Char.ofNat 0x2006, Char.ofNat 0x2007,
   Char.ofNat 0x2008, Char.ofNat 0x2009, Char.ofNat 0x200A,
   Char.ofNat 0x2028, Char.ofNat 0x2029, Char.ofNat 0x202F,
   Char.ofNat 0x205F, Char.ofNat 0x3000, Char.ofNat 0xFEFF]

/-- `c` is JavaScript whitespace (`\s`). -/
def jsWhitespace (c : Char) : Bool :=
  jsWhitespaceChars.contains c

/-- JavaScript `String.prototype.trim`: drop leading and trailing whitespace. -/
def jsTrim (cs : List Char) : List Char :=
  ((cs.dropWhile jsWhitespace).reverse.dropWhile jsWhitespace).reverse

/-- JavaScript `String.prototype.toLowerCase`, modelled on ASCII letters
(non-ASCII characters are returned unchanged). -/
def jsToLower (c : Char) : Char :=
  if 'A' ≤ c ∧ c ≤ 'Z' then Char.ofNat (c.toNat + 32) else c

/-- `str.trim().toLowerCase().replace(/\s+/g, '')` — the `normalize` helper
inside `compareAnswers`: trim, lowercase, remove all whitespace. -/
def normalizeChars (cs : List Char) : List Char :=
  ((jsTrim cs).map jsToLower).filter (fun c => !jsWhitespace c)

/-- `str.replace(/\(|\)/g, '').replace(/\s/g, '')` — the `simplifyExpr`
helper inside `compareAnswers`: remove all parentheses, then all whitespace. -/
def simplifyExpr (cs : List Char) : List Char :=
  (cs.filter (fun c => !(c = '(' || c = ')'))).filter (fun c => !jsWhitespace c)

/-! ## JavaScript `parseFloat`

`parseFloat` parses the longest prefix of the string that is a valid
`StrDecimalLiteral` (optional sign, then `Infinity` or a decimal literal
with optional fraction and exponent) and ignores any trailing characters;
if no prefix parses, the result is `NaN`.  The result is modelled exactly:
finite values as rationals, `Infinity` as a separate constructor, and `NaN`
as `none`. -/

/-- A non-`NaN` JavaScript number as produced by `parseFloat`. -/
inductive JSNum where
  | finite (q : ℚ)
  | posInf
  | negInf
  deriving DecidableEq

/-- Numeric value of a digit run (most significant first). -/
def digitsToNat (ds : List Char) : ℕ :=
  ds.foldl (fun a c => 10 * a + (c.toNat - 48)) 0

/-- Value of the exponent digits (0 if there are none: an `e` not followed
by digits is trailing garbage and contributes exponent 0). -/
def expDigitsVal (cs : List Char) : ℤ :=
  (digitsToNat (cs.takeWhile Char.isDigit) : ℤ)

/-- Signed exponent after the `e`/`E` marker. -/
def parseExpSigned (cs : List Char) : ℤ :=
  match cs with
  | '+' :: r => expDigitsVal r
  | '-' :: r => -(expDigitsVal r)
  | r => expDigitsVal r

/-- The optional `ExponentPart` at `cs`; 0 when absent or incomplete
(in which case `parseFloat` treats the `e` as trailing garbage). -/
def parseExpPart (cs : List Char) : ℤ :=
  match cs with
  | 'e' :: r => parseExpSigned r
  | 'E' :: r => parseExpSigned r
  | _ => 0

/-- An unsigned `StrUnsignedDecimalLiteral` prefix: `Infinity`, or
digits with optional fraction and exponent; `none` when no prefix parses. -/
def parseUnsigned (cs : List Char) (neg : Bool) : Option JSNum :=
  if cs.take 8 = "Infinity".toList then
    some (if neg then .negInf else .posInf)
  else
    let intDigits := cs.takeWhile Char.isDigit
    let rest1 := cs.dropWhile Char.isDigit
    let fracDigits :=
      match rest1 with
      | '.' :: r => r.takeWhile Char.isDigit
      | _ => []
    let rest2 :=
      match rest1 with
      | '.' :: r => r.dropWhile Char.isDigit
      | _ => rest1
    if intDigits = [] ∧ fracDigits = [] then none
    else
      let mant : ℚ :=
        (digitsToNat intDigits : ℚ) + (digitsToNat fracDigits : ℚ) / (10 : ℚ) ^ fracDigits.length
      let value : ℚ := mant * (10 : ℚ) ^ parseExpPart rest2
      some (.finite (if neg then -value else value))

/-- JavaScript `parseFloat` on a character list: skip leading whitespace,
optional sign, then the longest valid numeric prefix; `none` models `NaN`. -/
def parseFloatChars (cs : List Char) : Option JSNum :=
  match cs.dropWhile jsWhitespace with
  | '+' :: rest => parseUnsigned rest false
  | '-' :: rest => parseUnsigned rest true
  | rest => parseUnsigned rest false

/-! ## Answer equivalence (`compareAnswers`) -/

/-- The tolerance used by the numeric comparison step. -/
def tolerance : ℚ := 1 / 1000000

/-- The numeric step of `compareAnswers`:
`!isNaN(userNum) && !isNaN(correctNum) && Math.abs(userNum - correctNum) < tolerance`.
A failed parse is `NaN` (excluded by the `isNaN` guard); if either value is
`Infinity` the difference is `Infinity` or `NaN`, never `< tolerance`. -/
def numClose : Option JSNum → Option JSNum → Bool
  | some (.finite x), some (.finite y) => decide (|x - y| < tolerance)
  | _, _ => false

/-- `compareAnswers` from `src/app/page.tsx` (an identical copy lives in
`src/ai/schemas/math-question.ts`): normalize both strings and compare;
else compare as numbers with tolerance `1e-6`; else compare with
parentheses and whitespace stripped; else `false`.  (The source's first
argument may also be `undefined`, returning `false`; both arguments are
strings here.) -/
def compareAnswers (userAnswerStr correctAnswerStr : String) : Bool :=
  let normUserAnswer := normalizeChars userAnswerStr.toList
  let normCorrectAnswer := normalizeChars correctAnswerStr.toList
  if normUserAnswer = normCorrectAnswer then true
  else if numClose (parseFloatChars normUserAnswer) (parseFloatChars normCorrectAnswer) then true
  else if simplifyExpr normUserAnswer = simplifyExpr normCorrectAnswer then true
  else false

/-- §4.3 of the specification, written from its words: (1) normalize both
strings (trim, lowercase, remove all whitespace), equal → true; (2) parse
both normalized strings as floating-point numbers, both parses succeed and
`abs(a-b) < 1e-6` → true; (3) strip parentheses and remaining whitespace
from the normalized strings, equal → true; (4) otherwise false. -/
def equivalentSpec (a b : String) : Bool :=
  let na := normalizeChars a.toList
  let nb := normalizeChars b.toList
  if na = nb then true
  else if numClose (parseFloatChars na) (parseFloatChars nb) then true
  else if simplifyExpr na = simplifyExpr nb then true
  else false

/-! ## Data model -/

/-- Question difficulty. -/
inductive Difficulty where
  | easy | medium | hard
  deriving DecidableEq

/-- Question type. -/
inductive QuestionType where
  | algebra | calculus | geometry | trigonometry
  deriving DecidableEq

/-- `QuestionSettings` (`page.tsx`): the form state; the optional fields
hold the sentinel `NONE_VALUE` string when "None" is selected. -/
structure QuestionSettings where
  difficulty : Difficulty
  type : QuestionType
  studentClass : Option String
  examType : Option String
  deriving DecidableEq

/-- `GenerateMathQuestionInput` (`math-question.ts`): request to the
external collaborator (sentinel already converted to `undefined`). -/
structure GenerateMathQuestionInput where
  difficulty : Difficulty
  type : QuestionType
  studentClass : Option String
  examType : Option String
  deriving DecidableEq

/-- `GenerateMathQuestionOutput` (`math-question.ts`): question, answer,
multiple-choice options (4 by schema) and explanation. -/
structure GenerateMathQuestionOutput where
  question : String
  answer : String
  options : List String
  explanation : String
  deriving DecidableEq

/-! ## Question generator post-processing (`generateMathQuestionFlow`) -/

/-- Characters kept at the front of the answer by the cleaning regexp:
the leading strip class is `[^a-zA-Z0-9(-]`. -/
def answerLeadKeep (c : Char) : Bool :=
  c.isAlphanum || c = '(' || c = '-'

/-- Characters kept at the back of the answer by the cleaning regexp:
the trailing strip class is `[^a-zA-Z0-9)]`. -/
def answerTrailKeep (c : Char) : Bool :=
  c.isAlphanum || c = ')'

/-- `output.answer.trim().replace(/^[^a-zA-Z0-9(-]+|[^a-zA-Z0-9)]+$/g, '')`:
trim, then remove the maximal leading run of characters that are not
alphanumeric, `(` or `-`, and the maximal trailing run of characters that
are not alphanumeric or `)`. -/
def cleanAnswer (s : String) : String :=
  String.mk ((((jsTrim s.toList).dropWhile (fun c => !answerLeadKeep c)).reverse.dropWhile
    (fun c => !answerTrailKeep c)).reverse)

/-- The trimmed option list `output.options.map(opt => opt.trim())`. -/
def cleanedOptionsOf (output : GenerateMathQuestionOutput) : List String :=
  output.options.map (fun opt => String.mk (jsTrim opt.toList))

/-- The index whose option is replaced by the cleaned answer when no option
is equivalent to it: a random index (`randIdx` modelling
`Math.floor(Math.random() * length)`, reduced mod the length), bumped to
the following index if that option already equals the answer. -/
def replaceIndexOf (opts : List String) (ans : String) (randIdx : ℕ) : ℕ :=
  let replaceIndex := randIdx % opts.length
  if compareAnswers (opts.getD replaceIndex "") ans then (replaceIndex + 1) % opts.length
  else replaceIndex

/-- Option fixing in `generateMathQuestionFlow`: if no cleaned option is
equivalent to the cleaned answer, overwrite the option at `replaceIndexOf`
with the answer and reshuffle (`shuffle` models the random-comparator
`sort`, an arbitrary permutation). -/
def fixedOptions (opts : List String) (ans : String) (randIdx : ℕ)
    (shuffle : List String → List String) : List String :=
  if opts.any (fun opt => compareAnswers opt ans) then opts
  else shuffle (opts.set (replaceIndexOf opts ans randIdx) ans)

/-- The post-processing of `generateMathQuestionFlow` (`math-question.ts`),
applied to the raw structured output of the external collaborator:
trim question/explanation, clean the answer, trim the options and ensure
the answer is selectable.  The collaborator's raw output and the two
random choices (replacement index, reshuffle permutation) are parameters. -/
def generateMathQuestionFlow (output : GenerateMathQuestionOutput) (randIdx : ℕ)
    (shuffle : List String → List String) : GenerateMathQuestionOutput :=
  let cleanedAnswer := cleanAnswer output.answer
  { question := String.mk (jsTrim output.question.toList)
    answer := cleanedAnswer
    options := fixedOptions (cleanedOptionsOf output) cleanedAnswer randIdx shuffle
    explanation := String.mk (jsTrim output.explanation.toList) }

/-- The answer-cleaning step as the claim words it: strip leading and
trailing non-alphanumeric characters from the trimmed answer (interior
characters untouched). -/
def cleanAnswerClaim (s : String) : String :=
  String.mk ((((jsTrim s.toList).dropWhile (fun c => !c.isAlphanum)).reverse.dropWhile
    (fun c => !c.isAlphanum)).reverse)

/-! ## Performance analyzer (`analyzePerformanceFlow`) -/

/-- One record of `activityHistory` (`performance-analysis` schema). -/
structure UserActivityRecord where
  question : String
  difficulty : Difficulty
  type : QuestionType
  userAnswer : Option String
  correctAnswer : String
  isCorrect : Bool
  timestamp : String
  deriving DecidableEq

/-- `AnalyzePerformanceInput`. -/
structure AnalyzePerformanceInput where
  activityHistory : List UserActivityRecord
  desiredFocus : Option String
  deriving DecidableEq

/-- `AnalyzePerformanceOutput`. -/
structure AnalyzePerformanceOutput where
  summary : String
  strengths : List String
  weaknesses : List String
  suggestions : List String
  suggestedNextQuestionType : Option QuestionType
  suggestedNextDifficulty : Option Difficulty
  deriving DecidableEq

/-- `s.length > 150 ? s.substring(0, 147) + '...' : s`. -/
def truncateSuggestion (s : String) : String :=
  if s.toList.length > 150 then String.mk (s.toList.take 147) ++ "..." else s

/-- The canned result returned for an empty activity history. -/
def notEnoughActivityResult : AnalyzePerformanceOutput :=
  { summary := "Not enough activity history to provide an analysis."
    strengths := []
    weaknesses := []
    suggestions := ["Try answering a few questions first!"]
    suggestedNextQuestionType := none
    suggestedNextDifficulty := none }

/-- `analyzePerformanceFlow` (analyze-user-performance flow): empty history
short-circuits to the canned result; otherwise the external collaborator is
invoked (modelled by the oracle `prompt`; `none` = no structured output,
which the flow turns into an error) and overlong suggestions are truncated.
The second component counts the external collaborator invocations
performed. -/
def analyzePerformanceFlow
    (prompt : AnalyzePerformanceInput → Option AnalyzePerformanceOutput)
    (input : AnalyzePerformanceInput) :
    Except String AnalyzePerformanceOutput × ℕ :=
  if input.activityHistory.isEmpty then
    (Except.ok notEnoughActivityResult, 0)
  else
    match prompt input with
    | none => (Except.error "AI failed to generate a performance analysis.", 1)
    | some output =>
        (Except.ok { output with suggestions := output.suggestions.map truncateSuggestion }, 1)

/-! ## User profile and streak -/

/-- `UserProfile` (`page.tsx`): last active date (calendar days modelled
as integers, `none` = never active), daily streak, questions answered. -/
structure UserProfile where
  lastActiveDate : Option ℤ
  streak : ℕ
  questionsAnswered : ℕ
  deriving DecidableEq

/-- `initialUserProfile`. -/
def initialUserProfile : UserProfile :=
  { lastActiveDate := none, streak := 0, questionsAnswered := 0 }

/-- The `setUserProfile` updater inside `handleCheckAnswer` (`page.tsx`):
same day → streak unchanged (and `lastActiveDate` kept); active exactly
yesterday → streak incremented; otherwise (gap of more than one day, or no
prior activity) → streak reset to 1; `questionsAnswered` always
incremented; `lastActiveDate` set to today whenever the day changed. -/
def updateProfileOnAnswer (p : UserProfile) (today : ℤ) : UserProfile :=
  if p.lastActiveDate = some today then
    { p with questionsAnswered := p.questionsAnswered + 1 }
  else if p.lastActiveDate = some (today - 1) then
    { lastActiveDate := some today, streak := p.streak + 1,
      questionsAnswered := p.questionsAnswered + 1 }
  else
    { lastActiveDate := some today, streak := 1,
      questionsAnswered := p.questionsAnswered + 1 }

/-! ## Session state machine (`MathQuestPage`) -/

/-- The sentinel string used by the form for the "None" choice. -/
def NONE_VALUE : String := "none_value"

/-- `DEFAULT_SETTINGS`. -/
def DEFAULT_SETTINGS : QuestionSettings :=
  { difficulty := .easy, type := .algebra,
    studentClass := some NONE_VALUE, examType := some NONE_VALUE }

/-- `compareSettings` (`page.tsx`): field-wise equality of two optional
settings objects, the optional fields defaulting to `NONE_VALUE`;
`false` if either object is missing. -/
def compareSettings : Option QuestionSettings → Option QuestionSettings → Bool
  | some s1, some s2 =>
      decide (s1.difficulty = s2.difficulty) && decide (s1.type = s2.type) &&
      decide (s1.studentClass.getD NONE_VALUE = s2.studentClass.getD NONE_VALUE) &&
      decide (s1.examType.getD NONE_VALUE = s2.examType.getD NONE_VALUE)
  | _, _ => false

/-- Conversion of form settings to a generation request: the `NONE_VALUE`
sentinel becomes `undefined`. -/
def toGenInput (s : QuestionSettings) : GenerateMathQuestionInput :=
  { difficulty := s.difficulty, type := s.type,
    studentClass := if s.studentClass = some NONE_VALUE then none else s.studentClass,
    examType := if s.examType = some NONE_VALUE then none else s.examType }

/-- `QuestionAttempt` (`page.tsx`): one displayed question with the user's
eventual answer and correctness, the timestamp and the settings used. -/
structure QuestionAttempt where
  questionData : GenerateMathQuestionOutput
  userAnswer : Option String
  isCorrect : Option Bool
  timestamp : String
  settings : QuestionSettings
  deriving DecidableEq

/-- The feedback state of the in-flight question. -/
inductive FeedbackState where
  | idle | correct | incorrect
  deriving DecidableEq

/-- The session state of `MathQuestPage`: the React state variables that
the modelled handlers read or write.  `isPreloading` models
`isPreloadingRef.current`; it is `false` between events (a preload
completes within the handler that initiates it in this embedding). -/
structure SessionState where
  history : List QuestionAttempt
  currentHistoryIndex : ℤ
  isLoading : Bool
  isCheckingAnswer : Bool
  feedback : FeedbackState
  preloadedAttempt : Option QuestionAttempt
  isPreloading : Bool
  userProfile : UserProfile
  settings : QuestionSettings
  deriving DecidableEq

/-- The initial session state (before hydration). -/
def initialState : SessionState :=
  { history := [], currentHistoryIndex := -1, isLoading := false,
    isCheckingAnswer := false, feedback := .idle, preloadedAttempt := none,
    isPreloading := false, userProfile := initialUserProfile,
    settings := DEFAULT_SETTINGS }

/-- `history[currentHistoryIndex]` — `undefined` (`none`) when the index is
negative or past the end. -/
def currentAttemptOf (s : SessionState) : Option QuestionAttempt :=
  if 0 ≤ s.currentHistoryIndex then s.history.get? s.currentHistoryIndex.toNat else none

/-- `isViewingHistory`: the cursor is on an attempt strictly before the
latest one. -/
def isViewingHistory (s : SessionState) : Bool :=
  decide (0 ≤ s.currentHistoryIndex ∧ s.currentHistoryIndex < (s.history.length : ℤ) - 1)

/-- `preloadNextQuestion` (`page.tsx`), with the awaited generation call
completing inline: guarded by `isPreloadingRef`; on success the result is
cached together with the settings used; on failure the cache is cleared. -/
def preloadNextQuestion (s : SessionState) (settings : QuestionSettings)
    (gen : GenerateMathQuestionInput → Option GenerateMathQuestionOutput)
    (now : String) : SessionState :=
  if s.isPreloading then s
  else
    match gen (toGenInput settings) with
    | some result =>
        let nextAttempt : QuestionAttempt :=
          { questionData := result, userAnswer := none, isCorrect := none,
            timestamp := now, settings := settings }
        { s with preloadedAttempt := some nextAttempt }
    | none => { s with preloadedAttempt := none }

/-- Appending the new attempt in `handleGenerateQuestion`: extend the
history, move the cursor to the new last index, reset feedback and the
checking flag, then preload the next question with the same settings. -/
def finishGenerate (s : SessionState) (att : QuestionAttempt)
    (settings : QuestionSettings)
    (gen : GenerateMathQuestionInput → Option GenerateMathQuestionOutput)
    (now : String) : SessionState :=
  let newHistory := s.history ++ [att]
  let s2 := { s with history := newHistory,
                     currentHistoryIndex := (newHistory.length : ℤ) - 1,
                     feedback := .idle, isCheckingAnswer := false }
  let s3 := preloadNextQuestion s2 settings gen now
  { s3 with isLoading := false }

/-- The on-demand branch of `handleGenerateQuestion`: ask the external
collaborator; on failure show a toast and stop loading (history, cursor
and the preload cache untouched). -/
def generateOnDemand (s : SessionState) (settings : QuestionSettings)
    (gen : GenerateMathQuestionInput → Option GenerateMathQuestionOutput)
    (now : String) : SessionState :=
  match gen (toGenInput settings) with
  | some result =>
      finishGenerate s
        { questionData := result, userAnswer := none, isCorrect := none,
          timestamp := now, settings := settings } settings gen now
  | none => { s with isLoading := false }

/-- `handleGenerateQuestion` (`page.tsx`): if a cached preload's settings
match the requested settings it is consumed (timestamp refreshed, cache
cleared) without a new foreground generation request; otherwise a
foreground request is issued (the cache is not touched on this path).
The second component is the number of foreground generation requests
issued to the external collaborator for the displayed question (the
background preload initiated afterwards is not a foreground request). -/
def handleGenerateQuestion (s : SessionState) (settings : QuestionSettings)
    (gen : GenerateMathQuestionInput → Option GenerateMathQuestionOutput)
    (now : String) : SessionState × ℕ :=
  let s0 := { s with isLoading := true, feedback := .idle, isCheckingAnswer := false }
  match s.preloadedAttempt with
  | some p =>
      if compareSettings (some p.settings) (some settings) then
        (finishGenerate { s0 with preloadedAttempt := none }
          { p with timestamp := now } settings gen now, 0)
      else (generateOnDemand s0 settings gen now, 1)
  | none => (generateOnDemand s0 settings gen now, 1)

/-- `handleCheckAnswer` (`page.tsx`): rejected unless a question is
displayed, no check is in progress, the cursor is valid and current, and
no feedback was given; otherwise computes correctness via `compareAnswers`
against the stored answer, mutates the attempt in place, updates the
profile, and preloads the next question with the current form settings. -/
def handleCheckAnswer (s : SessionState) (ans : String) (today : ℤ)
    (gen : GenerateMathQuestionInput → Option GenerateMathQuestionOutput)
    (now : String) : SessionState :=
  match currentAttemptOf s with
  | none => s
  | some att =>
      if s.isCheckingAnswer = true ∨ s.currentHistoryIndex < 0 ∨
          isViewingHistory s = true ∨ s.feedback ≠ .idle then s
      else
        let isCorrect := compareAnswers ans att.questionData.answer
        let s1 := { s with
          isCheckingAnswer := true,
          feedback := if isCorrect then .correct else .incorrect,
          history := s.history.set s.currentHistoryIndex.toNat
            { att with userAnswer := some ans, isCorrect := some isCorrect },
          userProfile := updateProfileOnAnswer s.userProfile today }
        preloadNextQuestion s1 s.settings gen now

/-- `handleGoToPrevious`. -/
def handleGoToPrevious (s : SessionState) : SessionState :=
  if 0 < s.currentHistoryIndex then
    { s with currentHistoryIndex := s.currentHistoryIndex - 1 }
  else s

/-- `handleGoToNext`: move the cursor forward; when arriving at the latest
attempt, preload with the current form settings. -/
def handleGoToNext (s : SessionState)
    (gen : GenerateMathQuestionInput → Option GenerateMathQuestionOutput)
    (now : String) : SessionState :=
  if s.currentHistoryIndex < (s.history.length : ℤ) - 1 then
    let s1 := { s with currentHistoryIndex := s.currentHistoryIndex + 1 }
    if s.currentHistoryIndex + 1 = (s.history.length : ℤ) - 1 then
      preloadNextQuestion s1 s.settings gen now
    else s1
  else s

/-- The "Go to Latest" button: jump the cursor to the last index; if the
latest attempt is unanswered (or absent), preload with the current form
settings. -/
def handleGoToLatest (s : SessionState)
    (gen : GenerateMathQuestionInput → Option GenerateMathQuestionOutput)
    (now : String) : SessionState :=
  let latestIndex : ℤ := (s.history.length : ℤ) - 1
  let s1 := { s with currentHistoryIndex := latestIndex }
  match (if 0 ≤ latestIndex then s.history.get? latestIndex.toNat else none) with
  | some att => if att.userAnswer = none then preloadNextQuestion s1 s.settings gen now else s1
  | none => preloadNextQuestion s1 s.settings gen now

/-- The history part of the hydration effect, run once on mount: a stored
history that parses as an array replaces the (empty) history, and the
cursor moves to the last question when the array is non-empty; missing or
malformed data (`none`) leaves the state untouched. -/
def hydrateHistory (parsed : Option (List QuestionAttempt)) (s : SessionState) : SessionState :=
  match parsed with
  | some h =>
      if 0 < h.length then
        { s with history := h, currentHistoryIndex := (h.length : ℤ) - 1 }
      else { s with history := h }
  | none => s

/-! ## Helper lemmas -/

/-- The numeric comparison step is symmetric. -/
theorem numClose_symm (u v : Option JSNum) : numClose u v = numClose v u := by
  rcases u with _ | (x | _ | _) <;> rcases v with _ | (y | _ | _) <;>
    simp [numClose, abs_sub_comm]

/-- `compareAnswers` returns `true` exactly when one of its three
comparison steps matches. -/
theorem compareAnswers_eq_true_iff (a b : String) :
    compareAnswers a b = true ↔
      normalizeChars a.toList = normalizeChars b.toList ∨
      numClose (parseFloatChars (normalizeChars a.toList))
        (parseFloatChars (normalizeChars b.toList)) = true ∨
      simplifyExpr (normalizeChars a.toList) = simplifyExpr (normalizeChars b.toList) := by
  simp only [compareAnswers]
  split_ifs with h1 h2 h3 <;> simp_all

/-- Every string is equivalent to itself (step 1 matches). -/
theorem compareAnswers_self (s : String) : compareAnswers s s = true := by
  rw [compareAnswers_eq_true_iff]
  exact Or.inl rfl

/-! ## C1 -/

/-- C1: the answer-equivalence function `compareAnswers` is a pure total
function of its two string arguments, and agrees everywhere with the
specification's four-step short-circuiting algorithm (`equivalentSpec`:
normalized equality; then numeric comparison with tolerance `1e-6` when
both normalized strings parse; then equality after stripping parentheses
and whitespace; otherwise false); in particular
`equivalent("2x+5","2x+ 5")` and `equivalent("(5)","5")` are true. -/
theorem compareAnswers_matches_spec :
    (∀ a b, compareAnswers a b = equivalentSpec a b) ∧
    compareAnswers "2x+5" "2x+ 5" = true ∧
    compareAnswers "(5)" "5" = true :=
  ⟨fun _ _ => rfl, by decide, by decide⟩

/-! ## C4 -/

/-- C4: the answer-equivalence function is symmetric:
`compareAnswers a b = compareAnswers b a` for all strings `a`, `b`. -/
theorem compareAnswers_symm (a b : String) :
    compareAnswers a b = compareAnswers b a := by
  have key : ∀ x y : String, compareAnswers x y = true → compareAnswers y x = true := by
    intro x y h
    rw [compareAnswers_eq_true_iff] at h ⊢
    rcases h with h | h | h
    · exact Or.inl h.symm
    · exact Or.inr (Or.inl (by rw [numClose_symm]; exact h))
    · exact Or.inr (Or.inr h.symm)
  by_cases h : compareAnswers a b = true
  · rw [h, key a b h]
  · have h2 : ¬ compareAnswers b a = true := fun hh => h (key b a hh)
    rw [Bool.not_eq_true] at h h2
    rw [h, h2]

/-! ## C3 -/

/-- C3: whenever the normalized forms of `a` and `b` both parse as (finite)
floating-point numbers whose difference is smaller than `1e-6` in absolute
value, `compareAnswers a b` is `true`. -/
theorem compareAnswers_numeric_tolerance (a b : String) (x y : ℚ)
    (ha : parseFloatChars (normalizeChars a.toList) = some (JSNum.finite x))
    (hb : parseFloatChars (normalizeChars b.toList) = some (JSNum.finite y))
    (hxy : |x - y| < tolerance) :
    compareAnswers a b = true := by
  rw [compareAnswers_eq_true_iff]
  refine Or.inr (Or.inl ?_)
  rw [ha, hb]
  simpa [numClose] using hxy

/-- C3 witness: `equivalent("3.0000001", "3")` is true via the numeric
step (`3.0000001` and `3` parse to rationals `1e-7 < 1e-6` apart). -/
theorem compareAnswers_numeric_tolerance_witness :
    parseFloatChars (normalizeChars "3.0000001".toList) =
      some (JSNum.finite (30000001 / 10000000)) ∧
    parseFloatChars (normalizeChars "3".toList) = some (JSNum.finite 3) ∧
    |(30000001 / 10000000 : ℚ) - 3| < tolerance ∧
    compareAnswers "3.0000001" "3" = true := by
  have ha : parseFloatChars (normalizeChars "3.0000001".toList) =
      some (JSNum.finite (30000001 / 10000000)) := by
    simp [parseFloatChars, parseUnsigned, normalizeChars, jsTrim, jsToLower,
      jsWhitespace, jsWhitespaceChars, digitsToNat, parseExpPart, parseExpSigned,
      expDigitsVal, Char.isDigit]
    norm_num
  have hb : parseFloatChars (normalizeChars "3".toList) = some (JSNum.finite 3) := by
    simp [parseFloatChars, parseUnsigned, normalizeChars, jsTrim, jsToLower,
      jsWhitespace, jsWhitespaceChars, digitsToNat, parseExpPart, parseExpSigned,
      expDigitsVal, Char.isDigit]
  have hxy : |(30000001 / 10000000 : ℚ) - 3| < tolerance := by
    rw [tolerance, abs_lt]
    constructor <;> norm_num
  exact ⟨ha, hb, hxy,
    compareAnswers_numeric_tolerance "3.0000001" "3" (30000001 / 10000000) 3 ha hb hxy⟩

/-- The head of `dropWhile p l` never satisfies `p`. -/
theorem head?_dropWhile_not (p : Char → Bool) (l : List Char) (c : Char)
    (h : (l.dropWhile p).head? = some c) : p c = false := by
  induction l with
  | nil => simp [List.dropWhile] at h
  | cons a t ih =>
      rw [List.dropWhile_cons] at h
      by_cases hp : p a = true
      · rw [if_pos hp] at h; exact ih h
      · rw [if_neg hp] at h
        simp only [List.head?_cons, Option.some.injEq] at h
        subst h
        exact Bool.not_eq_true _ |>.mp hp

/-- Stripping a leading and then a trailing run: the first remaining
character never satisfies `p`, the last one never satisfies `q`. -/
theorem strip_ends_boundary (p q : Char → Bool) (l : List Char) :
    (∀ c, (((l.dropWhile p).reverse.dropWhile q).reverse.head? = some c) → p c = false) ∧
    (∀ c, (((l.dropWhile p).reverse.dropWhile q).reverse.getLast? = some c) → q c = false) := by
  constructor
  · intro c h
    rw [List.head?_reverse] at h
    obtain ⟨w, hw⟩ := List.dropWhile_suffix q (l := (l.dropWhile p).reverse)
    have hY : ((l.dropWhile p).reverse).getLast? = some c := by
      rw [← hw, List.getLast?_append, h]; rfl
    rw [List.getLast?_reverse] at hY
    exact head?_dropWhile_not p l c hY
  · intro c h
    rw [List.getLast?_reverse] at h
    exact head?_dropWhile_not q _ c h

/-! ## C9 -/

/-- C9 counterexample: on the answer `"-5"` the code preserves the leading
minus sign (the leading strip class `[^a-zA-Z0-9(-]` keeps `-`), while the
claim's algorithm — strip leading and trailing non-alphanumeric characters,
preserving only interior `-`, `(`, `)` — would strip it. -/
theorem cleanAnswer_counterexample :
    cleanAnswer "-5" = "-5" ∧ cleanAnswerClaim "-5" = "5" ∧
    cleanAnswer "-5" ≠ cleanAnswerClaim "-5" :=
  ⟨by decide, by decide, by decide⟩

/-- C9 amended: the generator's answer cleaning trims the answer, then
strips the maximal leading run of characters that are not alphanumeric,
`(` or `-`, and the maximal trailing run of characters that are not
alphanumeric or `)`; interior characters are untouched, and any remaining
first character is alphanumeric, `(` or `-` and any remaining last
character is alphanumeric or `)`.  In particular `- `, `(` survive at the
front, `)` at the back, and interior `-`, `(`, `)` always survive. -/
theorem cleanAnswer_strip_classes (s : String) :
    cleanAnswer s = String.mk ((((jsTrim s.toList).dropWhile
        (fun c => !answerLeadKeep c)).reverse.dropWhile
        (fun c => !answerTrailKeep c)).reverse) ∧
    (∀ c, ((cleanAnswer s).toList.head? = some c) → answerLeadKeep c = true) ∧
    (∀ c, ((cleanAnswer s).toList.getLast? = some c) → answerTrailKeep c = true) ∧
    cleanAnswer "-5" = "-5" ∧ cleanAnswer "(5)" = "(5)" ∧
    cleanAnswer ".-x(2)." = "-x(2)" ∧ cleanAnswer "**x - 2**" = "x - 2" := by
  obtain ⟨hhead, hlast⟩ := strip_ends_boundary
    (fun c => !answerLeadKeep c) (fun c => !answerTrailKeep c) (jsTrim s.toList)
  refine ⟨rfl, ?_, ?_, by decide, by decide, by decide, by decide⟩
  · intro c h
    have := hhead c h
    simpa using this
  · intro c h
    have := hlast c h
    simpa using this

/-- C9 witness: concrete instance of the boundary facts at `s = "-5"`. -/
theorem cleanAnswer_strip_classes_witness :
    (cleanAnswer "-5").toList.head? = some '-' ∧ answerLeadKeep '-' = true ∧
    (cleanAnswer "-5").toList.getLast? = some '5' ∧ answerTrailKeep '5' = true :=
  ⟨by decide, (cleanAnswer_strip_classes "-5").2.1 '-' (by decide),
   by decide, (cleanAnswer_strip_classes "-5").2.2.1 '5' (by decide)⟩

/-! ## C2 -/

/-- C2: generator post-processing invariant — for every raw collaborator
output with 4 options, every outcome of the random replacement-index
choice, and every reshuffle (any permutation), the returned question has at
least one option equivalent (per `compareAnswers`) to its cleaned answer;
and when no cleaned option is equivalent, the returned options are exactly
a reshuffle of the cleaned options with the one at the chosen index
replaced by the cleaned answer. -/
theorem generator_answer_always_selectable (output : GenerateMathQuestionOutput)
    (randIdx : ℕ) (shuffle : List String → List String)
    (hshuffle : ∀ l, List.Perm (shuffle l) l)
    (hlen : output.options.length = 4) :
    ((generateMathQuestionFlow output randIdx shuffle).options.any
      (fun opt => compareAnswers opt (generateMathQuestionFlow output randIdx shuffle).answer)) = true ∧
    ((cleanedOptionsOf output).any
        (fun opt => compareAnswers opt (cleanAnswer output.answer)) = false →
      (generateMathQuestionFlow output randIdx shuffle).options =
        shuffle ((cleanedOptionsOf output).set
          (replaceIndexOf (cleanedOptionsOf output) (cleanAnswer output.answer) randIdx)
          (cleanAnswer output.answer))) := by
  have hoptlen : (cleanedOptionsOf output).length = 4 := by
    simp [cleanedOptionsOf, hlen]
  constructor
  · show (fixedOptions (cleanedOptionsOf output) (cleanAnswer output.answer) randIdx shuffle).any
      (fun opt => compareAnswers opt (cleanAnswer output.answer)) = true
    unfold fixedOptions
    by_cases hany : (cleanedOptionsOf output).any
        (fun opt => compareAnswers opt (cleanAnswer output.answer)) = true
    · rw [if_pos hany]; exact hany
    · rw [if_neg hany]
      have hidx : replaceIndexOf (cleanedOptionsOf output) (cleanAnswer output.answer) randIdx <
          (cleanedOptionsOf output).length := by
        simp only [replaceIndexOf, hoptlen]
        split_ifs <;> exact Nat.mod_lt _ (by norm_num)
      have hmem : cleanAnswer output.answer ∈
          (cleanedOptionsOf output).set
            (replaceIndexOf (cleanedOptionsOf output) (cleanAnswer output.answer) randIdx)
            (cleanAnswer output.answer) :=
        List.mem_set _ _ hidx _
      have hmem2 : cleanAnswer output.answer ∈
          shuffle ((cleanedOptionsOf output).set
            (replaceIndexOf (cleanedOptionsOf output) (cleanAnswer output.answer) randIdx)
            (cleanAnswer output.answer)) :=
        ((hshuffle _).mem_iff).mpr hmem
      exact List.any_eq_true.mpr ⟨_, hmem2, compareAnswers_self _⟩
  · intro hnone
    show fixedOptions (cleanedOptionsOf output) (cleanAnswer output.answer) randIdx shuffle = _
    unfold fixedOptions
    rw [if_neg (by rw [hnone]; exact Bool.false_ne_true)]

/-- C2 witness: a raw output whose options omit the answer `"7"`; with
replacement index 0 and the identity reshuffle, the fixed output contains
an option equivalent to the cleaned answer. -/
theorem generator_answer_always_selectable_witness :
    (∀ l : List String, List.Perm (id l) l) ∧
    (GenerateMathQuestionOutput.mk "Q" "7" ["1", "2", "3", "4"] "E").options.length = 4 ∧
    ((generateMathQuestionFlow (GenerateMathQuestionOutput.mk "Q" "7" ["1", "2", "3", "4"] "E") 0 id).options.any
      (fun opt => compareAnswers opt
        (generateMathQuestionFlow (GenerateMathQuestionOutput.mk "Q" "7" ["1", "2", "3", "4"] "E") 0 id).answer)) = true :=
  ⟨fun l => List.Perm.refl l, rfl,
   (generator_answer_always_selectable (GenerateMathQuestionOutput.mk "Q" "7" ["1", "2", "3", "4"] "E")
     0 id (fun l => List.Perm.refl l) rfl).1⟩

/-! ## C5 -/

/-- C5: calling the analyzer with an empty activity history — for every
value of the optional `desiredFocus` and every behaviour of the external
collaborator — returns the canned "not enough activity" result (summary
`"Not enough activity history to provide an analysis."`, empty strengths
and weaknesses, exactly one suggestion, no suggested next type or
difficulty), succeeds, and performs zero external collaborator calls. -/
theorem analyzer_empty_history_canned (focus : Option String)
    (prompt : AnalyzePerformanceInput → Option AnalyzePerformanceOutput) :
    analyzePerformanceFlow prompt ⟨[], focus⟩ = (Except.ok notEnoughActivityResult, 0) ∧
    notEnoughActivityResult.summary = "Not enough activity history to provide an analysis." ∧
    notEnoughActivityResult.strengths = [] ∧
    notEnoughActivityResult.weaknesses = [] ∧
    notEnoughActivityResult.suggestions.length = 1 ∧
    notEnoughActivityResult.suggestedNextQuestionType = none ∧
    notEnoughActivityResult.suggestedNextDifficulty = none :=
  ⟨rfl, rfl, rfl, rfl, rfl, rfl, rfl⟩

/-! ## C8 -/

/-- C8: the profile update on answer submission — same day: streak and
last-active date unchanged; last active exactly one day before: streak
incremented and last-active date set to today; otherwise (gap of more than
one day or no prior activity): streak reset to 1 and last-active date set
to today; in every case `questionsAnswered` increases by 1. -/
theorem streak_update_on_submission (p : UserProfile) (today : ℤ) :
    (updateProfileOnAnswer p today).questionsAnswered = p.questionsAnswered + 1 ∧
    (p.lastActiveDate = some today →
      (updateProfileOnAnswer p today).streak = p.streak ∧
      (updateProfileOnAnswer p today).lastActiveDate = p.lastActiveDate) ∧
    (p.lastActiveDate = some (today - 1) →
      (updateProfileOnAnswer p today).streak = p.streak + 1 ∧
      (updateProfileOnAnswer p today).lastActiveDate = some today) ∧
    (p.lastActiveDate ≠ some today → p.lastActiveDate ≠ some (today - 1) →
      (updateProfileOnAnswer p today).streak = 1 ∧
      (updateProfileOnAnswer p today).lastActiveDate = some today) := by
  refine ⟨?_, ?_, ?_, ?_⟩
  · unfold updateProfileOnAnswer
    split_ifs <;> rfl
  · intro h
    rw [updateProfileOnAnswer, if_pos h]
    exact ⟨rfl, rfl⟩
  · intro h
    have hne : p.lastActiveDate ≠ some today := by
      rw [h]
      intro hh
      have : today - 1 = today := by injection hh
      omega
    rw [updateProfileOnAnswer, if_neg hne, if_pos h]
    exact ⟨rfl, rfl⟩
  · intro h1 h2
    rw [updateProfileOnAnswer, if_neg h1, if_neg h2]
    exact ⟨rfl, rfl⟩

/-- C8 witness: last active yesterday (day 100, today 101) → streak 3 → 4;
last active three days ago (day 98, today 101) → streak reset to 1. -/
theorem streak_update_on_submission_witness :
    (updateProfileOnAnswer (UserProfile.mk (some 100) 3 10) 101).streak = 3 + 1 ∧
    (updateProfileOnAnswer (UserProfile.mk (some 100) 3 10) 101).lastActiveDate = some 101 ∧
    (updateProfileOnAnswer (UserProfile.mk (some 98) 3 10) 101).streak = 1 ∧
    (updateProfileOnAnswer (UserProfile.mk (some 100) 3 10) 101).questionsAnswered = 10 + 1 :=
  ⟨((streak_update_on_submission (UserProfile.mk (some 100) 3 10) 101).2.2.1 (by decide)).1,
   ((streak_update_on_submission (UserProfile.mk (some 100) 3 10) 101).2.2.1 (by decide)).2,
   ((streak_update_on_submission (UserProfile.mk (some 98) 3 10) 101).2.2.2 (by decide) (by decide)).1,
   (streak_update_on_submission (UserProfile.mk (some 100) 3 10) 101).1⟩

/-! ## Session-machine helper lemmas -/

/-- `preloadNextQuestion` only touches the preload cache: history, cursor,
flags, feedback, profile and settings are unchanged. -/
theorem preloadNextQuestion_preserves (s : SessionState) (q : QuestionSettings)
    (gen : GenerateMathQuestionInput → Option GenerateMathQuestionOutput) (now : String) :
    (preloadNextQuestion s q gen now).history = s.history ∧
    (preloadNextQuestion s q gen now).currentHistoryIndex = s.currentHistoryIndex ∧
    (preloadNextQuestion s q gen now).isCheckingAnswer = s.isCheckingAnswer ∧
    (preloadNextQuestion s q gen now).feedback = s.feedback ∧
    (preloadNextQuestion s q gen now).userProfile = s.userProfile ∧
    (preloadNextQuestion s q gen now).isLoading = s.isLoading := by
  unfold preloadNextQuestion
  split
  · exact ⟨rfl, rfl, rfl, rfl, rfl, rfl⟩
  · rcases gen (toGenInput q) with _ | r <;> exact ⟨rfl, rfl, rfl, rfl, rfl, rfl⟩

/-- The guard disjunction of `handleCheckAnswer`: a submission is rejected
when no question is displayed, a check is already in progress, the cursor
is negative, an older attempt is being viewed, or feedback was given. -/
def submissionRejected (s : SessionState) : Prop :=
  currentAttemptOf s = none ∨ s.isCheckingAnswer = true ∨ s.currentHistoryIndex < 0 ∨
    isViewingHistory s = true ∨ s.feedback ≠ .idle

instance (s : SessionState) : Decidable (submissionRejected s) := by
  unfold submissionRejected
  infer_instance

/-- A rejected submission returns the state unchanged, whatever the
submitted answer, date, oracle and timestamp. -/
theorem handleCheckAnswer_rejected (s : SessionState) (h : submissionRejected s)
    (ans : String) (today : ℤ)
    (gen : GenerateMathQuestionInput → Option GenerateMathQuestionOutput) (now : String) :
    handleCheckAnswer s ans today gen now = s := by
  unfold handleCheckAnswer
  rcases hc : currentAttemptOf s with _ | att
  · rfl
  · have hcond : s.isCheckingAnswer = true ∨ s.currentHistoryIndex < 0 ∨
        isViewingHistory s = true ∨ s.feedback ≠ .idle := by
      rcases h with h | h
      · rw [hc] at h; exact absurd h (by simp)
      · exact h
    dsimp only
    rw [if_pos hcond]

/-- An accepted submission leaves the state with `isCheckingAnswer = true`
and the attempt, feedback and profile updated. -/
theorem handleCheckAnswer_accepted (s : SessionState) (h : ¬ submissionRejected s)
    (ans : String) (today : ℤ)
    (gen : GenerateMathQuestionInput → Option GenerateMathQuestionOutput)
    (now : String) (att : QuestionAttempt) (hc : currentAttemptOf s = some att) :
    (handleCheckAnswer s ans today gen now).isCheckingAnswer = true ∧
    (handleCheckAnswer s ans today gen now).history =
      s.history.set s.currentHistoryIndex.toNat
        { att with userAnswer := some ans,
                   isCorrect := some (compareAnswers ans att.questionData.answer) } ∧
    (handleCheckAnswer s ans today gen now).userProfile =
      updateProfileOnAnswer s.userProfile today := by
  unfold submissionRejected at h
  push_neg at h
  obtain ⟨-, h2, h3, h4, h5⟩ := h
  have hcond : ¬ (s.isCheckingAnswer = true ∨ s.currentHistoryIndex < 0 ∨
      isViewingHistory s = true ∨ s.feedback ≠ .idle) := by
    push_neg
    refine ⟨h2, ?_, ?_, h5⟩
    · omega
    · exact fun hv => h4 hv
  unfold handleCheckAnswer
  rw [hc]
  dsimp only
  rw [if_neg hcond]
  obtain ⟨hh, hi, hck, hf, hp, hl⟩ := preloadNextQuestion_preserves
    { s with
      isCheckingAnswer := true,
      feedback := if compareAnswers ans att.questionData.answer then .correct else .incorrect,
      history := s.history.set s.currentHistoryIndex.toNat
        { att with userAnswer := some ans,
                   isCorrect := some (compareAnswers ans att.questionData.answer) },
      userProfile := updateProfileOnAnswer s.userProfile today }
    s.settings gen now
  exact ⟨hck, hh, hp⟩

/-! ## C7 -/

/-- C7: single-mutation submission — submitting a second time after any
submission leaves the session state (the attempt's `userAnswer` and
`isCorrect`, and the user profile, included) exactly unchanged; and an
accepted first submission sets the current attempt's `userAnswer` to the
submitted answer and `isCorrect` to the `compareAnswers` verdict against
the attempt's stored answer, and updates the profile. -/
theorem submit_single_mutation :
    (∀ s ans today gen now ans2 today2 gen2 now2,
      handleCheckAnswer (handleCheckAnswer s ans today gen now) ans2 today2 gen2 now2 =
        handleCheckAnswer s ans today gen now) ∧
    (∀ s ans today gen now att, ¬ submissionRejected s → currentAttemptOf s = some att →
      (handleCheckAnswer s ans today gen now).history =
        s.history.set s.currentHistoryIndex.toNat
          { att with userAnswer := some ans,
                     isCorrect := some (compareAnswers ans att.questionData.answer) } ∧
      (handleCheckAnswer s ans today gen now).userProfile =
        updateProfileOnAnswer s.userProfile today) := by
  constructor
  · intro s ans today gen now ans2 today2 gen2 now2
    by_cases hr : submissionRejected s
    · rw [handleCheckAnswer_rejected s hr ans today gen now,
          handleCheckAnswer_rejected s hr ans2 today2 gen2 now2]
    · rcases hc : currentAttemptOf s with _ | att
      · exact absurd (Or.inl hc) hr
      · have hck := (handleCheckAnswer_accepted s hr ans today gen now att hc).1
        exact handleCheckAnswer_rejected _ (Or.inr (Or.inl hck)) ans2 today2 gen2 now2
  · intro s ans today gen now att hr hc
    exact ⟨(handleCheckAnswer_accepted s hr ans today gen now att hc).2.1,
           (handleCheckAnswer_accepted s hr ans today gen now att hc).2.2⟩

/-- C7 witness: a state displaying one fresh attempt; submitting `"5"`
(the stored answer) records it with `isCorrect = true`. -/
theorem submit_single_mutation_witness :
    ¬ submissionRejected { initialState with
        history := [⟨⟨"Q", "5", ["5", "6", "7", "8"], "E"⟩, none, none, "t0",
          ⟨.easy, .algebra, none, none⟩⟩],
        currentHistoryIndex := 0 } ∧
    (handleCheckAnswer { initialState with
        history := [⟨⟨"Q", "5", ["5", "6", "7", "8"], "E"⟩, none, none, "t0",
          ⟨.easy, .algebra, none, none⟩⟩],
        currentHistoryIndex := 0 } "5" 100 (fun _ => none) "t1").history =
      [⟨⟨"Q", "5", ["5", "6", "7", "8"], "E"⟩, some "5", some true, "t0",
        ⟨.easy, .algebra, none, none⟩⟩] := by
  constructor
  · decide
  · have h := submit_single_mutation.2
      { initialState with
        history := [⟨⟨"Q", "5", ["5", "6", "7", "8"], "E"⟩, none, none, "t0",
          ⟨.easy, .algebra, none, none⟩⟩],
        currentHistoryIndex := 0 } "5" 100 (fun _ => none) "t1"
      ⟨⟨"Q", "5", ["5", "6", "7", "8"], "E"⟩, none, none, "t0",
        ⟨.easy, .algebra, none, none⟩⟩ (by decide) (by decide)
    rw [h.1]
    decide

/-! ## C6 -/

/-- A sample collaborator output used in the preload scenarios. -/
def sampleQuestion : GenerateMathQuestionOutput :=
  ⟨"Q", "5", ["5", "6", "7", "8"], "E"⟩

/-- A second sample collaborator output. -/
def sampleQuestion2 : GenerateMathQuestionOutput :=
  ⟨"Q1", "9", ["9", "6", "7", "8"], "E1"⟩

/-- Sample settings `S1`. -/
def easySettings : QuestionSettings := ⟨.easy, .algebra, none, none⟩

/-- Sample settings `S2 ≠ S1`. -/
def hardSettings : QuestionSettings := ⟨.hard, .algebra, none, none⟩

/-- A completed background preload for `easySettings`. -/
def cachedAttempt : QuestionAttempt := ⟨sampleQuestion, none, none, "t0", easySettings⟩

/-- A session state holding that completed preload. -/
def preloadedState : SessionState := { initialState with preloadedAttempt := some cachedAttempt }

/-- An external collaborator that answers every request with `sampleQuestion2`. -/
def genSome : GenerateMathQuestionInput → Option GenerateMathQuestionOutput :=
  fun _ => some sampleQuestion2

/-- An external collaborator whose requests all fail. -/
def genNone : GenerateMathQuestionInput → Option GenerateMathQuestionOutput :=
  fun _ => none

/-- C6 counterexample: a completed preload for settings `S1 = (easy,
algebra)` and a generate request for different settings `S2 = (hard,
algebra)` whose fresh generation fails: contrary to the claim, the `S1`
preload is not discarded — it is still cached after the `S2` request, and
a following generate request for `S1` reuses it (consumes it with zero
foreground generation requests, the stale question becoming the displayed
attempt). -/
theorem preload_discard_counterexample :
    compareSettings (some easySettings) (some hardSettings) = false ∧
    ((handleGenerateQuestion preloadedState hardSettings genNone "t1").1).preloadedAttempt =
      some cachedAttempt ∧
    (handleGenerateQuestion
        (handleGenerateQuestion preloadedState hardSettings genNone "t1").1
        easySettings genSome "t2").2 = 0 ∧
    ((handleGenerateQuestion
        (handleGenerateQuestion preloadedState hardSettings genNone "t1").1
        easySettings genSome "t2").1).history.map (fun a => a.questionData) =
      [sampleQuestion] :=
  ⟨by decide, by decide, by decide, by decide⟩

/-- C6 amended: when a completed preload's settings are field-wise equal
(per `compareSettings`) to the requested settings, the request consumes the
cached attempt (it becomes the new last history entry, timestamp
refreshed) and issues zero foreground generation requests; when the
settings differ, one fresh foreground generation request is issued and the
cached preload is not used for the request — if the fresh request
succeeds the stale preload is replaced by the result of the new background
preload, but if the fresh request fails the stale preload remains cached
(it is not discarded, which is where the original claim fails). -/
theorem preload_consume_and_discard :
    (∀ s settings gen now p, s.preloadedAttempt = some p →
      compareSettings (some p.settings) (some settings) = true →
      (handleGenerateQuestion s settings gen now).2 = 0 ∧
      (handleGenerateQuestion s settings gen now).1.history =
        s.history ++ [{ p with timestamp := now }]) ∧
    (∀ s settings gen now p q, s.isPreloading = false →
      s.preloadedAttempt = some p →
      compareSettings (some p.settings) (some settings) = false →
      gen (toGenInput settings) = some q →
      (handleGenerateQuestion s settings gen now).2 = 1 ∧
      (handleGenerateQuestion s settings gen now).1.history =
        s.history ++ [⟨q, none, none, now, settings⟩] ∧
      (handleGenerateQuestion s settings gen now).1.preloadedAttempt =
        some ⟨q, none, none, now, settings⟩) ∧
    (∀ s settings gen now p, s.preloadedAttempt = some p →
      compareSettings (some p.settings) (some settings) = false →
      gen (toGenInput settings) = none →
      (handleGenerateQuestion s settings gen now).2 = 1 ∧
      (handleGenerateQuestion s settings gen now).1.preloadedAttempt = some p) := by
  refine ⟨?_, ?_, ?_⟩
  · intro s settings gen now p hp hmatch
    unfold handleGenerateQuestion
    rw [hp]
    dsimp only
    rw [if_pos hmatch]
    refine ⟨rfl, ?_⟩
    show (finishGenerate _ _ _ _ _).history = _
    unfold finishGenerate
    dsimp only
    obtain ⟨hh, -⟩ := preloadNextQuestion_preserves _ settings gen now
    rw [hh]
  · intro s settings gen now p q hpre hp hdiff hgen
    unfold handleGenerateQuestion
    rw [hp]
    dsimp only
    rw [if_neg (by rw [hdiff]; exact Bool.false_ne_true)]
    unfold generateOnDemand
    rw [hgen]
    refine ⟨rfl, ?_, ?_⟩
    · show (finishGenerate _ _ _ _ _).history = _
      unfold finishGenerate
      dsimp only
      obtain ⟨hh, -⟩ := preloadNextQuestion_preserves _ settings gen now
      rw [hh]
    · show (finishGenerate _ _ _ _ _).preloadedAttempt = _
      unfold finishGenerate preloadNextQuestion
      dsimp only
      rw [if_neg (by show ¬ s.isPreloading = true; rw [hpre]; exact Bool.false_ne_true)]
      rw [hgen]
  · intro s settings gen now p hp hdiff hgen
    unfold handleGenerateQuestion
    rw [hp]
    dsimp only
    rw [if_neg (by rw [hdiff]; exact Bool.false_ne_true)]
    unfold generateOnDemand
    rw [hgen]
    dsimp only
    exact ⟨rfl, rfl⟩

/-- C6 witness: with a completed preload for `(easy, algebra)`, generating
with the same settings consumes it with zero foreground requests, and
generating with `(hard, algebra)` when generation succeeds replaces the
stale preload with the fresh background preload. -/
theorem preload_consume_and_discard_witness :
    ((handleGenerateQuestion preloadedState easySettings genSome "t1").2 = 0 ∧
      (handleGenerateQuestion preloadedState easySettings genSome "t1").1.history =
        [⟨sampleQuestion, none, none, "t1", easySettings⟩]) ∧
    ((handleGenerateQuestion preloadedState hardSettings genSome "t1").1).preloadedAttempt =
      some ⟨sampleQuestion2, none, none, "t1", hardSettings⟩ := by
  refine ⟨?_, ?_⟩
  · have h := preload_consume_and_discard.1 preloadedState easySettings genSome "t1"
      cachedAttempt rfl (by decide)
    exact ⟨h.1, h.2⟩
  · have h := preload_consume_and_discard.2.1 preloadedState hardSettings genSome "t1"
      cachedAttempt sampleQuestion2 rfl rfl (by decide) rfl
    exact h.2.2

/-! ## C10 -/

/-- The history-cursor invariant: the cursor is `-1` exactly when the
history is empty, and otherwise lies between `0` and `history.length - 1`. -/
def cursorInv (s : SessionState) : Prop :=
  (s.history = [] → s.currentHistoryIndex = -1) ∧
  (s.history ≠ [] → 0 ≤ s.currentHistoryIndex ∧
    s.currentHistoryIndex ≤ (s.history.length : ℤ) - 1)

instance (s : SessionState) : Decidable (cursorInv s) := by
  unfold cursorInv
  infer_instance

/-- `finishGenerate` always re-establishes the cursor invariant: the
appended history is non-empty and the cursor points at its last entry. -/
theorem cursorInv_finishGenerate (s : SessionState) (att : QuestionAttempt)
    (settings : QuestionSettings)
    (gen : GenerateMathQuestionInput → Option GenerateMathQuestionOutput)
    (now : String) : cursorInv (finishGenerate s att settings gen now) := by
  unfold finishGenerate
  dsimp only
  obtain ⟨hh, hi, -, -, -, -⟩ := preloadNextQuestion_preserves
    { s with history := s.history ++ [att],
             currentHistoryIndex := ((s.history ++ [att]).length : ℤ) - 1,
             feedback := .idle, isCheckingAnswer := false } settings gen now
  unfold cursorInv
  rw [hh, hi]
  dsimp only
  refine ⟨fun h => absurd h (by simp), fun _ => ?_⟩
  push_cast [List.length_append, List.length_singleton]
  omega

/-- `generateOnDemand` preserves the cursor invariant. -/
theorem cursorInv_generateOnDemand (s : SessionState) (settings : QuestionSettings)
    (gen : GenerateMathQuestionInput → Option GenerateMathQuestionOutput)
    (now : String) (hs : cursorInv s) :
    cursorInv (generateOnDemand s settings gen now) := by
  unfold generateOnDemand
  rcases gen (toGenInput settings) with _ | q
  · exact hs
  · exact cursorInv_finishGenerate _ _ _ _ _

/-- C10: the history-cursor invariant — `currentHistoryIndex = -1` exactly
when the history is empty, else `0 ≤ currentHistoryIndex ≤ length - 1` —
holds initially, is established by hydration, and is preserved by question
generation, answer submission, previous/next navigation and go-to-latest;
under it the current-attempt lookup never misses. -/
theorem cursor_invariant :
    cursorInv initialState ∧
    (∀ parsed, cursorInv (hydrateHistory parsed initialState)) ∧
    (∀ s settings gen now, cursorInv s →
      cursorInv (handleGenerateQuestion s settings gen now).1) ∧
    (∀ s ans today gen now, cursorInv s →
      cursorInv (handleCheckAnswer s ans today gen now)) ∧
    (∀ s, cursorInv s → cursorInv (handleGoToPrevious s)) ∧
    (∀ s gen now, cursorInv s → cursorInv (handleGoToNext s gen now)) ∧
    (∀ s gen now, cursorInv s → cursorInv (handleGoToLatest s gen now)) ∧
    (∀ s, cursorInv s → s.history ≠ [] → (currentAttemptOf s).isSome = true) := by
  refine ⟨?_, ?_, ?_, ?_, ?_, ?_, ?_, ?_⟩
  · exact ⟨fun _ => rfl, fun h => absurd rfl h⟩
  · intro parsed
    rcases parsed with _ | h
    · exact ⟨fun _ => rfl, fun h => absurd rfl h⟩
    · unfold hydrateHistory
      dsimp only
      by_cases hl : 0 < h.length
      · rw [if_pos hl]
        constructor
        · intro he
          dsimp only at he
          rw [he] at hl
          simp at hl
        · intro _
          dsimp only
          omega
      · rw [if_neg hl]
        have he : h = [] := List.length_eq_zero.mp (by omega)
        subst he
        exact ⟨fun _ => rfl, fun hne => absurd rfl hne⟩
  · intro s settings gen now hs
    unfold handleGenerateQuestion
    rcases s.preloadedAttempt with _ | p
    · exact cursorInv_generateOnDemand _ _ _ _ hs
    · dsimp only
      split_ifs
      · exact cursorInv_finishGenerate _ _ _ _ _
      · exact cursorInv_generateOnDemand _ _ _ _ hs
  · intro s ans today gen now hs
    unfold handleCheckAnswer
    rcases currentAttemptOf s with _ | att
    · exact hs
    · dsimp only
      by_cases hcond : (s.isCheckingAnswer = true ∨ s.currentHistoryIndex < 0 ∨
          isViewingHistory s = true ∨ s.feedback ≠ FeedbackState.idle)
      · rw [if_pos hcond]
        exact hs
      · rw [if_neg hcond]
        obtain ⟨hh, hi, -, -, -, -⟩ := preloadNextQuestion_preserves
            { s with
              isCheckingAnswer := true,
              feedback := if compareAnswers ans att.questionData.answer then .correct
                else .incorrect,
              history := s.history.set s.currentHistoryIndex.toNat
                { att with userAnswer := some ans,
                           isCorrect := some (compareAnswers ans att.questionData.answer) },
              userProfile := updateProfileOnAnswer s.userProfile today } s.settings gen now
        unfold cursorInv
        rw [hh, hi]
        dsimp only
        obtain ⟨h1, h2⟩ := hs
        have hlen := List.length_set s.history s.currentHistoryIndex.toNat
          { att with userAnswer := some ans,
                     isCorrect := some (compareAnswers ans att.questionData.answer) }
        constructor
        · intro he
          apply h1
          have : s.history.length = 0 := by rw [← hlen, he]; rfl
          exact List.length_eq_zero.mp this
        · intro hne
          have hne' : s.history ≠ [] := by
            intro he
            apply hne
            rw [he]
            rfl
          obtain ⟨hb1, hb2⟩ := h2 hne'
          rw [hlen]
          exact ⟨hb1, hb2⟩
  · intro s hs
    unfold handleGoToPrevious
    split_ifs with h
    · obtain ⟨h1, h2⟩ := hs
      refine ⟨fun he => ?_, fun hne => ?_⟩
      · have := h1 he; dsimp only; omega
      · obtain ⟨hb1, hb2⟩ := h2 hne
        dsimp only
        omega
    · exact hs
  · intro s gen now hs
    unfold handleGoToNext
    split_ifs with h h2
    all_goals try exact hs
    · obtain ⟨h1, hinv2⟩ := hs
      have hne : s.history ≠ [] := by
        intro he
        have := h1 he
        rw [he] at h
        simp at h
        omega
      obtain ⟨hb1, hb2⟩ := hinv2 hne
      obtain ⟨hh, hi, -, -, -, -⟩ := preloadNextQuestion_preserves
        { s with currentHistoryIndex := s.currentHistoryIndex + 1 } s.settings gen now
      unfold cursorInv
      rw [hh, hi]
      dsimp only
      exact ⟨fun he => absurd he hne, fun _ => by omega⟩
    · obtain ⟨h1, hinv2⟩ := hs
      have hne : s.history ≠ [] := by
        intro he
        have := h1 he
        rw [he] at h
        simp at h
        omega
      obtain ⟨hb1, hb2⟩ := hinv2 hne
      exact ⟨fun he => absurd he hne, fun _ => by dsimp only; omega⟩
  · intro s gen now hs
    unfold handleGoToLatest
    dsimp only
    have hbase : cursorInv
        { s with currentHistoryIndex := (s.history.length : ℤ) - 1 } := by
      refine ⟨fun he => ?_, fun hne => ?_⟩
      · dsimp only
        rw [he]
        rfl
      · dsimp only
        have : s.history.length ≠ 0 := fun h0 => hne (List.length_eq_zero.mp h0)
        omega
    have hpre : cursorInv (preloadNextQuestion
        { s with currentHistoryIndex := (s.history.length : ℤ) - 1 } s.settings gen now) := by
      obtain ⟨hh, hi, -, -, -, -⟩ := preloadNextQuestion_preserves
        { s with currentHistoryIndex := (s.history.length : ℤ) - 1 } s.settings gen now
      unfold cursorInv
      rw [hh, hi]
      exact hbase
    split
    · split_ifs
      · exact hpre
      · exact hbase
    · exact hpre
  · intro s hs hne
    obtain ⟨-, h2⟩ := hs
    obtain ⟨hb1, hb2⟩ := h2 hne
    unfold currentAttemptOf
    rw [if_pos hb1, List.get?_eq_getElem?]
    have : s.currentHistoryIndex.toNat < s.history.length := by omega
    simp [this]

/-- C10 witness: the invariant holds at the initial state and is carried
through concrete navigation steps from it. -/
theorem cursor_invariant_witness :
    cursorInv initialState ∧
    cursorInv (handleGoToPrevious initialState) ∧
    cursorInv (handleGoToLatest initialState genNone "t0") :=
  ⟨cursor_invariant.1,
   cursor_invariant.2.2.2.2.1 initialState (by decide),
   cursor_invariant.2.2.2.2.2.2.1 initialState genNone "t0" (by decide)⟩

end MathQuest
